import Mathlib

/-!
Shallow embedding of the `dspy-promptfoo` adapter layer
(`src/dspy_promptfoo/provider.py` and `src/dspy_promptfoo/auth.py`).

Python dictionaries are modelled as association lists with first-match
lookup and in-place-update insertion (Python dicts keep insertion order and
`d[k] = v` overwrites in place).  Python values are modelled by the
inductive type `Value`; fallible Python operations (attribute access,
subscripting, `+=` on mixed types) are modelled in the `Except String`
monad, an `Except.error` standing for a raised exception.  External
collaborators (the DSPy optimizers and the language-model call) are
modelled as oracle parameters.
-/

namespace DspyPromptfoo

/-- Model of a Python runtime value, covering the shapes the provider code
manipulates: strings, ints, bools, `None`, lists, dicts, and objects with
named attributes (`className` is the runtime type name). -/
inductive Value : Type where
  | str (s : String)
  | int (n : Int)
  | bool (b : Bool)
  | pynone
  | list (xs : List Value)
  | dict (entries : List (String × Value))
  | obj (className : String) (attrs : List (String × Value))

/-- A Python dict with string keys, as an insertion-ordered association list. -/
abbrev Dict (α : Type) : Type := List (String × α)

/-- First-match lookup, `d.get(k)` / `k in d`. -/
def dget {α : Type} : Dict α → String → Option α
  | [], _ => Option.none
  | (k', v') :: rest, k => if k' = k then some v' else dget rest k

/-- `d.get(k, dflt)`. -/
def dgetD {α : Type} (d : Dict α) (k : String) (dflt : α) : α :=
  (dget d k).getD dflt

/-- `d[k] = v`: overwrite the first binding of `k` in place, else append. -/
def dset {α : Type} : Dict α → String → α → Dict α
  | [], k, v => [(k, v)]
  | (k', v') :: rest, k, v =>
      if k' = k then (k, v) :: rest else (k', v') :: dset rest k v

/-- `d.update(src)`: assign every binding of `src` into `d`, in order. -/
def dupdate {α : Type} (d src : Dict α) : Dict α :=
  src.foldl (fun acc kv => dset acc kv.1 kv.2) d

/-- `pat.isPrefixOf hay` on character lists. -/
def leadsWith : List Char → List Char → Bool
  | [], _ => true
  | _ :: _, [] => false
  | a :: as, b :: bs => a = b && leadsWith as bs

/-- Contiguous-substring test on character lists. -/
def pyInChars (pat : List Char) : List Char → Bool
  | [] => pat.isEmpty
  | c :: rest => leadsWith pat (c :: rest) || pyInChars pat rest

/-- Python `pat in hay` on strings (contiguous substring containment). -/
def pyIn (pat hay : String) : Bool :=
  pyInChars pat.toList hay.toList

/-- Python `s.lower()`, modelled over the underlying character list (ASCII
case mapping; the claims only exercise ASCII data). -/
def pyLower (s : String) : String :=
  String.mk (s.data.map Char.toLower)

/-- Python truthiness of an optional string (`None` and `""` are falsy). -/
def optStrTruthy : Option String → Bool
  | Option.none => false
  | some s => !(s = "")

/-- Python `str(v)`.  Total: `str` on the built-in shapes above does not
raise.  Container and object representations are modelled shallowly (no
claim depends on their exact text, only on `str` being total). -/
def pyStr : Value → String
  | .str s => s
  | .int n => toString n
  | .bool b => if b then "True" else "False"
  | .pynone => "None"
  | .list _ => "[...]"
  | .dict _ => "\x7b...\x7d"
  | .obj n _ => "<" ++ n ++ " object>"

/-- Python `type(v).__name__`. -/
def typeName : Value → String
  | .str _ => "str"
  | .int _ => "int"
  | .bool _ => "bool"
  | .pynone => "NoneType"
  | .list _ => "list"
  | .dict _ => "dict"
  | .obj n _ => n

/-- Attribute lookup on an object, as an `Option`.  Only `obj` values carry
attributes in this model (built-in method attributes of `str`/`dict` values
are not modelled; no claim exercises them). -/
def getattrOpt : Value → String → Option Value
  | .obj _ attrs, f => dget attrs f
  | _, _ => Option.none

/-- Python `hasattr(v, f)`. -/
def hasattrV (v : Value) (f : String) : Bool :=
  (getattrOpt v f).isSome

/-- Python `getattr(v, f)`: raises `AttributeError` when the attribute is
absent. -/
def getattrE (v : Value) (f : String) : Except String Value :=
  match getattrOpt v f with
  | some x => Except.ok x
  | Option.none => Except.error ("AttributeError: " ++ f)

/-- Python `isinstance(v, dict)`. -/
def isDictV : Value → Bool
  | .dict _ => true
  | _ => false

/-- Python `k in v` for a dict value (false on non-dicts; the provider only
evaluates it after an `isinstance` guard). -/
def dictContainsV : Value → String → Bool
  | .dict es, k => (dget es k).isSome
  | _, _ => false

/-- Python `v[k]`: raises `KeyError` on a missing key and `TypeError` on a
non-subscriptable value. -/
def dictItemE : Value → String → Except String Value
  | .dict es, k =>
      match dget es k with
      | some x => Except.ok x
      | Option.none => Except.error ("KeyError: " ++ k)
  | _, _ => Except.error "TypeError: object is not subscriptable"

/-! ### Configuration descriptor and provider state

`DSPyProvider.__init__` reads `OPENAI_API_KEY`, configures the external LM
client, and sets `self.compiled_modules = dict()` — the module cache is an
attribute of the provider instance.  The configuration descriptor is
modelled as a structure whose `Option` fields embed the `config.get(key,
default)` reads of the source (absent key ↦ `Option.none`). -/

/-- One training example for the optimizer: the fields of the example dict
plus the declared input-field names (`with_inputs`).  A present non-list
`inputs` value, which would fail at the argument splat in Python, is
modelled as the empty input list; no claim depends on trainset contents. -/
structure TrainEx where
  fields : Dict Value
  inputs : List String

/-- The provider configuration dict (`options["config"]`). -/
structure Config where
  module_type : Option String := Option.none
  signature : Option String := Option.none
  tools : Option (List String) := Option.none
  optimize : Option Bool := Option.none
  optimizer : Option String := Option.none
  examples : Option (List (Dict Value)) := Option.none
  output_field : Option String := Option.none
  debug : Option Bool := Option.none

/-- The kind of DSPy program a `module_type` string selects.  The `react`
kind records its tool names (the only part of the tool handling visible to
the claims). -/
inductive ModuleKind : Type where
  | predict
  | chainOfThought
  | programOfThought
  | react (tools : List String)
deriving DecidableEq

/-- An instantiated DSPy program.  `id` is a process-wide allocation number:
two modules are the identical Python object (reference equality) exactly
when their `id`s coincide. -/
structure Module where
  id : Nat
  kind : ModuleKind
  signature : String
deriving DecidableEq

/-- The mutable state of one `DSPyProvider` instance: its
`self.compiled_modules` cache. -/
structure Provider where
  compiled_modules : Dict Module
deriving DecidableEq

/-- The `options` argument of `call_api`. -/
structure Options where
  config : Option Config := Option.none

/-- The `context` argument of `call_api`. -/
structure Context where
  vars : Option (Dict Value) := Option.none

/-- A DSPy result object: its value view (attributes / mapping) together
with its usage log — `lm_usage = some log` models
`hasattr(result, "get_lm_usage")` with `result.get_lm_usage()` yielding the
entries `log`. -/
structure DspyResult where
  val : Value
  lm_usage : Option (List Value) := Option.none

/-- Oracles for the external collaborators: the two supported optimizer
algorithms (`BootstrapFewShot`, `BootstrapFewShotWithRandomSearch`), the
program invocation against the external LM, and the wall clock read by
`datetime.now().isoformat()`. -/
structure Ext where
  bfs : Module → List TrainEx → Except String Module
  bfsrs : Module → List TrainEx → Except String Module
  run : Module → Dict Value → Except String DspyResult := fun _ _ => Except.error "no LM"
  now : String := ""

/-! ### Program registry (`DSPyProvider._get_or_create_module`) -/

/-- `cache_key = f"\x7bmodule_type\x7d_\x7bsignature\x7d"` after the two
`config.get` reads with their defaults. -/
def cacheKey (cfg : Config) : String :=
  (cfg.module_type.getD "predict") ++ "_" ++ (cfg.signature.getD "question -> answer")

/-- The `if/elif` dispatch on `module_type` creating a fresh program object
(allocation number `id`); unrecognized kinds fall through to
`dspy.Predict`.  The `react` branch substitutes the dummy tool when no
tools are configured. -/
def createModule (cfg : Config) (id : Nat) : Module :=
  let module_type := cfg.module_type.getD "predict"
  let signature := cfg.signature.getD "question -> answer"
  if module_type = "predict" then { id := id, kind := .predict, signature := signature }
  else if module_type = "chain_of_thought" then
    { id := id, kind := .chainOfThought, signature := signature }
  else if module_type = "program_of_thought" then
    { id := id, kind := .programOfThought, signature := signature }
  else if module_type = "react" then
    let tools := cfg.tools.getD []
    { id := id, kind := .react (if tools.isEmpty then ["dummy_tool"] else tools),
      signature := signature }
  else { id := id, kind := .predict, signature := signature }

/-- The argument splat `*v` over a Python value: lists yield their
elements, strings their characters, dicts their keys; any other value
raises `TypeError` (objects are modelled without iteration support).
Non-string elements are dropped from the resulting name list — no claim
depends on the names themselves, only on whether the splat raises. -/
def splatStrings : Value → Except String (List String)
  | .list vs =>
      Except.ok (vs.filterMap fun v => match v with | .str s => some s | _ => Option.none)
  | .str s => Except.ok (s.data.map fun c => String.mk [c])
  | .dict es => Except.ok (es.map Prod.fst)
  | _ => Except.error "TypeError: argument after * must be an iterable"

/-- `dspy.Example(**ex).with_inputs(*ex.get("inputs", ["question"]))`: a
present non-iterable `inputs` value raises `TypeError` at the splat. -/
def mkTrainEx (ex : Dict Value) : Except String TrainEx :=
  match dget ex "inputs" with
  | Option.none => Except.ok { fields := ex, inputs := ["question"] }
  | some v =>
      match splatStrings v with
      | Except.error e => Except.error e
      | Except.ok names => Except.ok { fields := ex, inputs := names }

/-- The `for ex in examples` trainset-building loop of `_optimize_module`;
it runs before the optimizer dispatch, so a raising conversion propagates. -/
def buildTrainset : List (Dict Value) → Except String (List TrainEx)
  | [] => Except.ok []
  | ex :: rest =>
      match mkTrainEx ex with
      | Except.error e => Except.error e
      | Except.ok t =>
          match buildTrainset rest with
          | Except.error e => Except.error e
          | Except.ok ts => Except.ok (t :: ts)

/-- The metric closure built inside `_optimize_module`.  It reads the
hardcoded attribute name `"answer"` on both the gold example and the
prediction — it does not consult the configuration — and evaluates
`gold.answer.lower() in pred.answer.lower()`; `.lower()` raises on a
non-string attribute value (the `Option.none` alternatives are unreachable
under the `hasattr` guard). -/
def defaultMetric (gold pred : Value) : Except String Bool :=
  if hasattrV pred "answer" && hasattrV gold "answer" then
    match getattrOpt gold "answer" with
    | some (.str gs) =>
        match getattrOpt pred "answer" with
        | some (.str ps) => Except.ok (pyIn (pyLower gs) (pyLower ps))
        | some _ => Except.error "AttributeError: lower"
        | Option.none => Except.error "AttributeError: answer"
    | some _ => Except.error "AttributeError: lower"
    | Option.none => Except.error "AttributeError: answer"
  else Except.ok true

/-- `DSPyProvider._optimize_module`: no-op on an empty example list;
otherwise builds the trainset (which can raise at the `inputs` splat) and
then dispatches on the optimizer name, the two supported names delegating
to the external optimizer oracle and anything else falling through to the
unoptimized module. -/
def optimizeModule (ext : Ext) (m : Module) (cfg : Config) : Except String Module :=
  if (cfg.examples.getD []).isEmpty then Except.ok m
  else
    match buildTrainset (cfg.examples.getD []) with
    | Except.error e => Except.error e
    | Except.ok trainset =>
        if cfg.optimizer.getD "BootstrapFewShot" = "BootstrapFewShot" then
          ext.bfs m trainset
        else if cfg.optimizer.getD "BootstrapFewShot" = "BootstrapFewShotWithRandomSearch" then
          ext.bfsrs m trainset
        else Except.ok m

/-- `DSPyProvider._get_or_create_module`, with the process-wide allocation
counter `alloc` threaded explicitly (it supplies fresh object identities).
Returns the resolved module together with the provider's updated cache. -/
def getOrCreateModule (ext : Ext) (cfg : Config) (s : Provider) (alloc : Nat) :
    Except String (Module × Provider × Nat) :=
  match dget s.compiled_modules (cacheKey cfg) with
  | some m => Except.ok (m, s, alloc)
  | Option.none =>
      match (if cfg.optimize.getD false then optimizeModule ext (createModule cfg alloc) cfg
             else Except.ok (createModule cfg alloc)) with
      | Except.error e => Except.error e
      | Except.ok m =>
          Except.ok (m, { compiled_modules := dset s.compiled_modules (cacheKey cfg) m },
            alloc + 1)

/-! ### Invocation adapter -/

/-- The kwargs-building block of `call_api`: when the prompt contains the
template marker `"\x7b\x7b"`, copy exactly the supplied vars; otherwise
bind the prompt under `"question"` and then `kwargs.update(vars)`. -/
def buildInputs (prompt : String) (vars : Dict Value) : Dict Value :=
  if pyIn "\x7b\x7b" prompt then dupdate [] vars
  else dupdate [("question", Value.str prompt)] vars

/-- `DSPyProvider._extract_output`, with the fallible Python primitives in
the `Except` monad: `getattr` guarded by `hasattr`, subscripting guarded by
`isinstance`/`in`, and `str` as the final fallback. -/
def extract_output (r : DspyResult) (cfg : Config) : Except String String :=
  if hasattrV r.val (cfg.output_field.getD "answer") then
    match getattrE r.val (cfg.output_field.getD "answer") with
    | Except.error e => Except.error e
    | Except.ok x => Except.ok (pyStr x)
  else if isDictV r.val && dictContainsV r.val (cfg.output_field.getD "answer") then
    match dictItemE r.val (cfg.output_field.getD "answer") with
    | Except.error e => Except.error e
    | Except.ok x => Except.ok (pyStr x)
  else Except.ok (pyStr r.val)

/-- Total output extraction following the spec's words: the configured
field as an attribute; if absent, as a mapping key when the result is a
mapping containing it; otherwise the string representation. -/
def extractOutputSpec (r : DspyResult) (cfg : Config) : String :=
  match getattrOpt r.val (cfg.output_field.getD "answer") with
  | some v => pyStr v
  | Option.none =>
      match r.val with
      | .dict es =>
          match dget es (cfg.output_field.getD "answer") with
          | some v => pyStr v
          | Option.none => pyStr r.val
      | _ => pyStr r.val

/-! ### Usage statistics (`DSPyProvider._get_usage_stats`) -/

/-- `acc += usage_data.get(k, 0)`: Python `int += value` succeeds on ints
and bools (bools are ints) and raises `TypeError` otherwise. -/
def pyAddTok (acc : Int) (us : Dict Value) (k : String) : Except String Int :=
  match dget us k with
  | Option.none => Except.ok acc
  | some (.int n) => Except.ok (acc + n)
  | some (.bool b) => Except.ok (acc + (if b then 1 else 0))
  | some _ => Except.error "TypeError: unsupported operand"

/-- The value of `entry.get("usage", \x7b\x7d)` when it supports `.get`
(i.e. is a dict), else `Option.none` (a non-dict value would raise
`AttributeError` at the `.get` call). -/
def usageDictOf (es : Dict Value) : Option (Dict Value) :=
  match dgetD es "usage" (Value.dict []) with
  | .dict us => some us
  | _ => Option.none

/-- The loop body of `_get_usage_stats`: non-dict entries are skipped; for a
dict entry, `entry.get("usage", \x7b\x7d)` must expose `.get` (raises
`AttributeError` on a non-dict value) and the three token fields are added
onto the accumulators `(total, prompt, completion)`. -/
def addEntry (acc : Int × Int × Int) (entry : Value) : Except String (Int × Int × Int) :=
  match entry with
  | .dict es =>
      match usageDictOf es with
      | some us =>
          match pyAddTok acc.1 us "total_tokens" with
          | Except.error e => Except.error e
          | Except.ok t =>
              match pyAddTok acc.2.1 us "prompt_tokens" with
              | Except.error e => Except.error e
              | Except.ok p =>
                  match pyAddTok acc.2.2 us "completion_tokens" with
                  | Except.error e => Except.error e
                  | Except.ok c => Except.ok (t, p, c)
      | Option.none => Except.error "AttributeError: get"
  | _ => Except.ok acc

/-- The `for entry in lm_usage` loop of `_get_usage_stats`. -/
def sumLog : List Value → Int × Int × Int → Except String (Int × Int × Int)
  | [], acc => Except.ok acc
  | e :: rest, acc =>
      match addEntry acc e with
      | Except.error err => Except.error err
      | Except.ok acc1 => sumLog rest acc1

/-- `DSPyProvider._get_usage_stats`: empty dict when the usage-log accessor
is absent or the log is falsy; otherwise run the summing loop and keep the
sums only when the accumulated total is positive. -/
def get_usage_stats (r : DspyResult) : Except String (Dict Int) :=
  match r.lm_usage with
  | Option.none => Except.ok []
  | some log =>
      if log.isEmpty then Except.ok []
      else
        match sumLog log (0, 0, 0) with
        | Except.error e => Except.error e
        | Except.ok s =>
            if 0 < s.1 then
              Except.ok [("total", s.1), ("prompt", s.2.1), ("completion", s.2.2)]
            else Except.ok []

/-- The token count a usage entry contributes to one field under the
default-0 read, for the total summing function below. -/
def tokD (us : Dict Value) (k : String) : Int :=
  match dget us k with
  | some (.int n) => n
  | some (.bool b) => if b then 1 else 0
  | _ => 0

/-- Total per-entry summing step mirroring `addEntry` on well-formed
entries. -/
def addEntrySpec (acc : Int × Int × Int) (entry : Value) : Int × Int × Int :=
  match entry with
  | .dict es =>
      match usageDictOf es with
      | some us =>
          (acc.1 + tokD us "total_tokens", acc.2.1 + tokD us "prompt_tokens",
           acc.2.2 + tokD us "completion_tokens")
      | Option.none => acc
  | _ => acc

/-- The total summing loop mirroring `sumLog`. -/
def sumLogSpec : List Value → Int × Int × Int → Int × Int × Int
  | [], acc => acc
  | e :: rest, acc => sumLogSpec rest (addEntrySpec acc e)

/-- Total usage extraction following the spec's words: sum the three token
fields across all logged entries; empty mapping when the accessor is absent
or no positive total was counted. -/
def usageSpecOf (r : DspyResult) : Dict Int :=
  match r.lm_usage with
  | Option.none => []
  | some log =>
      if log.isEmpty then []
      else
        if 0 < (sumLogSpec log (0, 0, 0)).1 then
          [("total", (sumLogSpec log (0, 0, 0)).1),
           ("prompt", (sumLogSpec log (0, 0, 0)).2.1),
           ("completion", (sumLogSpec log (0, 0, 0)).2.2)]
        else []

/-- Does one usage-log token field hold an addable value (absent, int or
bool)? -/
def tokOK (us : Dict Value) (k : String) : Bool :=
  match dget us k with
  | Option.none => true
  | some (.int _) => true
  | some (.bool _) => true
  | some _ => false

/-- Is one logged entry well formed (its `"usage"` value, when the entry is
a dict, is itself a dict whose token fields are addable)?  Non-dict entries
are skipped by the source loop and hence always well formed. -/
def entryOK (entry : Value) : Bool :=
  match entry with
  | .dict es =>
      match usageDictOf es with
      | some us =>
          tokOK us "total_tokens" && tokOK us "prompt_tokens" &&
            tokOK us "completion_tokens"
      | Option.none => false
  | _ => true

/-- Is the whole usage log of a result well formed? -/
def logOK (r : DspyResult) : Bool :=
  match r.lm_usage with
  | Option.none => true
  | some log => log.all entryOK

/-! ### Top-level invocation (`call_api`) -/

/-- The `metadata` block of the success envelope. -/
structure Meta where
  module_type : String
  signature : String
  optimized : Bool
  timestamp : String

/-- The response envelope `call_api` returns: `output` always present,
`error` only on the failure path, `tokenUsage` / `metadata` / `debug` only
where the source sets those keys. -/
structure Response where
  output : String
  error : Option String := Option.none
  tokenUsage : Option (Dict Int) := Option.none
  metadata : Option Meta := Option.none
  debug : Option (String × String) := Option.none

/-- `DSPyProvider.__init__`: raises `ValueError` when `OPENAI_API_KEY` is
absent or empty, else yields a provider with an empty module cache. -/
def mkProvider (apiKey : Option String) : Except String Provider :=
  if optStrTruthy apiKey then Except.ok { compiled_modules := [] }
  else Except.error "OPENAI_API_KEY environment variable is required"

/-- The program-resolution prefix of `call_api`'s `try` block: construct the
provider, read `options.get("config", \x7b\x7d)`, and resolve the module
through the freshly constructed provider's registry. -/
def resolveInCallApi (ext : Ext) (apiKey : Option String) (options : Options)
    (alloc : Nat) : Except String (Module × Provider × Nat) := do
  let provider ← mkProvider apiKey
  let config := options.config.getD {}
  getOrCreateModule ext config provider alloc

/-- The payload of a successful `call_api` run. -/
structure SuccessData where
  output : String
  tokenUsage : Option (Dict Int)
  metadata : Meta
  debug : Option (String × String)

/-- The `try` block of `call_api`: resolve the program, build the kwargs,
invoke the program through the LM oracle, then extract output and usage and
assemble the success payload. -/
def call_api_try (ext : Ext) (apiKey : Option String) (prompt : String)
    (options : Options) (context : Context) (alloc : Nat) :
    Except String (SuccessData × Nat) := do
  let (m, _provider1, alloc1) ← resolveInCallApi ext apiKey options alloc
  let config := options.config.getD {}
  let vars := context.vars.getD []
  let kwargs := buildInputs prompt vars
  let result ← ext.run m kwargs
  let output ← extract_output result config
  let usage ← get_usage_stats result
  Except.ok
    ({ output := output,
       tokenUsage := if usage.isEmpty then Option.none else some usage,
       metadata :=
         { module_type := config.module_type.getD "predict",
           signature := config.signature.getD "question -> answer",
           optimized := config.optimize.getD false,
           timestamp := ext.now },
       debug :=
         if config.debug.getD false then some (pyStr result.val, typeName result.val)
         else Option.none },
     alloc1)

/-- `call_api`: the `try` body above with the single `except Exception`
boundary converting any raised exception into the error envelope. -/
def call_api (ext : Ext) (apiKey : Option String) (prompt : String)
    (options : Options) (context : Context) (alloc : Nat) : Response × Nat :=
  match call_api_try ext apiKey prompt options context alloc with
  | Except.ok (s, alloc1) =>
      ({ output := s.output, error := Option.none, tokenUsage := s.tokenUsage,
         metadata := some s.metadata, debug := s.debug }, alloc1)
  | Except.error e =>
      ({ output := "", error := some ("DSPy Provider Error: " ++ e) }, alloc)

/-- Modelled from the spec's words for the optimizer's default correctness
metric: case-insensitive substring containment between the expected and the
produced value of the configured output field (compared with
`defaultMetric`, which the source builds without consulting the
configuration). -/
def metricSpec (cfg : Config) (gold pred : Value) : Bool :=
  let f := cfg.output_field.getD "answer"
  match getattrOpt gold f, getattrOpt pred f with
  | some (.str g), some (.str p) => pyIn (pyLower g) (pyLower p)
  | _, _ => true

/-! ### Auth environment configuration (`PromptfooAuth.configure_promptfoo_env`) -/

/-- A Python return value that is either `None` or a bool (the three-valued
return of `configure_promptfoo_env`). -/
inductive PyRet : Type where
  | pynone
  | bool (b : Bool)
deriving DecidableEq

/-- The `except Exception` branch of `configure_promptfoo_env`: the warning
line, the browser remediation hints when the message mentions a browser,
and the `False` return.  `pre` carries the lines already printed inside the
`try` block before the exception. -/
def authFailLines (e : String) (pre : List String) : PyRet × List String × Dict String :=
  (PyRet.bool false,
   pre ++ (["⚠️  Authentication setup failed: " ++ e] ++
     (if pyIn "browser" (pyLower e) then
        ["\nTry browser authentication:",
         "  1. Run: python -m cake_auth login",
         "  2. Complete authentication in browser",
         "  3. Retry the evaluation"]
      else [])),
   [])

/-- `PromptfooAuth.configure_promptfoo_env`, returning the Python return
value, the printed lines in order, and the environment variables set.  The
external credential calls `get_recommended_auth_method` and `get_token` are
oracle parameters (`Except.error` models a raised exception). -/
def configure_promptfoo_env (manualToken : Option String) (authAvailable : Bool)
    (getRecommendedAuthMethod : Except String String)
    (getToken : Except String (Option String))
    (base_url app_url : String) : PyRet × List String × Dict String :=
  if optStrTruthy manualToken then
    let tok := manualToken.getD ""
    (PyRet.bool true,
     ["🔑 Using manual JWT token", "✓ Authentication configured for " ++ base_url],
     [("PROMPTFOO_AUTH_TOKEN", tok),
      ("PROMPTFOO_SHARE_API_BASE_URL", base_url),
      ("PROMPTFOO_SHARE_APP_BASE_URL", app_url),
      ("PROMPTFOO_API_HEADERS", "Authorization: Bearer " ++ tok)])
  else if !authAvailable then
    (PyRet.pynone,
     ["⚠️  Cake auth not available - running without authentication",
      "To enable auth, you can:",
      "  1. Set CAKE_JWT_TOKEN with a manual token",
      "  2. Set CAKE_DEX_INFERENCE_PASSWORD",
      "  3. Or configure AWS credentials for Secrets Manager"],
     [])
  else
    match getRecommendedAuthMethod with
    | Except.error e => authFailLines e []
    | Except.ok authMethod =>
        match getToken with
        | Except.error e => authFailLines e ["Using auth method: " ++ authMethod]
        | Except.ok tok =>
            if optStrTruthy tok then
              (PyRet.bool true,
               ["Using auth method: " ++ authMethod,
                "✓ Authentication configured for " ++ base_url],
               [("PROMPTFOO_AUTH_TOKEN", tok.getD ""),
                ("PROMPTFOO_SHARE_API_BASE_URL", base_url),
                ("PROMPTFOO_SHARE_APP_BASE_URL", app_url),
                ("PROMPTFOO_API_HEADERS", "Authorization: Bearer " ++ tok.getD "")])
            else
              (PyRet.bool false,
               ["Using auth method: " ++ authMethod,
                "⚠️  No auth token retrieved - authentication may fail"],
               [])

/-! ### Concrete inputs used by witnesses and counterexamples -/

/-- A trivial oracle set: both optimizers return their input unchanged and
no LM is reachable. -/
def ext0 : Ext := { bfs := fun m _ => Except.ok m, bfsrs := fun m _ => Except.ok m }

/-- A freshly constructed provider (empty cache). -/
def prov0 : Provider := { compiled_modules := [] }

/-- A configuration selecting an unrecognized module kind. -/
def cfgUnknown : Config := { module_type := some "unknown_kind" }

/-- The module the default (empty) configuration creates first in a fresh
process. -/
def mDefault : Module := { id := 0, kind := ModuleKind.predict, signature := "question -> answer" }

/-- The same request resolved a second time through a second freshly
constructed provider: a new object. -/
def mDefault1 : Module := { id := 1, kind := ModuleKind.predict, signature := "question -> answer" }

/-- The cache of a provider after resolving the default configuration. -/
def provDefault : Provider :=
  { compiled_modules := [("predict_question -> answer", mDefault)] }

/-- The cache of a second fresh provider after resolving the default
configuration. -/
def provDefault1 : Provider :=
  { compiled_modules := [("predict_question -> answer", mDefault1)] }

/-- First colliding descriptor: kind `predict`, signature `x_y -> z`. -/
def cfgPredictXY : Config := { module_type := some "predict", signature := some "x_y -> z" }

/-- Second colliding descriptor: kind `predict_x`, signature `y -> z`; its
underscore-joined cache key equals the first descriptor's. -/
def cfgPredictX_Y : Config := { module_type := some "predict_x", signature := some "y -> z" }

/-- The module created and cached for `cfgPredictXY`. -/
def mXY : Module := { id := 0, kind := ModuleKind.predict, signature := "x_y -> z" }

/-- The provider cache after resolving `cfgPredictXY`. -/
def provXY : Provider := { compiled_modules := [("predict_x_y -> z", mXY)] }

/-- A configuration with a nonempty example list and an unsupported
optimizer name. -/
def cfgGepa : Config :=
  { optimizer := some "GEPA",
    examples := some [[("question", Value.str "q"), ("answer", Value.str "a")]] }

/-- An unsupported optimizer name together with an example whose `inputs`
value is a non-iterable int: the splat in the trainset conversion raises
before the optimizer dispatch is reached. -/
def cfgBadSplat : Config :=
  { optimizer := some "GEPA",
    examples := some [[("question", Value.str "q"), ("inputs", Value.int 5)]] }

/-- An arbitrary module fed to the optimizer. -/
def m7 : Module := { id := 5, kind := ModuleKind.chainOfThought, signature := "question -> answer" }

/-- A result whose usage log holds a malformed entry: its `"usage"` value
is a string, so `usage_data.get(...)` raises `AttributeError` in the
summing loop. -/
def rBadUsage : DspyResult :=
  { val := Value.obj "Prediction" [],
    lm_usage := some [Value.dict [("usage", Value.str "oops")]] }

/-- A result whose usage log holds a dict entry with a non-int
`total_tokens` value, on which the `+=` raises `TypeError`. -/
def rBadTok : DspyResult :=
  { val := Value.obj "Prediction" [],
    lm_usage := some [Value.dict [("usage", Value.dict [("total_tokens", Value.str "5")])]] }

/-- A result whose usage log holds two entries with `total_tokens` 10 and
15. -/
def rUsage : DspyResult :=
  { val := Value.obj "Prediction" [("answer", Value.str "ok")],
    lm_usage := some
      [Value.dict [("usage", Value.dict [("total_tokens", Value.int 10)])],
       Value.dict [("usage", Value.dict [("total_tokens", Value.int 15)])]] }

/-- A configuration selecting `summary` as the output field. -/
def cfgSummary : Config := { output_field := some "summary" }

/-- A gold example whose configured field `summary` matches the prediction
while its `answer` field does not. -/
def goldEx : Value := Value.obj "Example" [("answer", Value.str "zzz"), ("summary", Value.str "abc")]

/-- The matching prediction for `goldEx`. -/
def predEx : Value :=
  Value.obj "Prediction" [("answer", Value.str "qqq"), ("summary", Value.str "xabcx")]

/-! ### Dictionary lemmas -/

theorem dget_dset_self {α : Type} (d : Dict α) (k : String) (v : α) :
    dget (dset d k v) k = some v := by
  induction d with
  | nil => simp [dset, dget]
  | cons kv rest ih =>
      obtain ⟨k', v'⟩ := kv
      by_cases h : k' = k
      · simp [dset, h, dget]
      · simp [dset, h, dget, ih]

theorem dget_dset_ne {α : Type} (d : Dict α) (kset kq : String) (v : α) (h : kq ≠ kset) :
    dget (dset d kset v) kq = dget d kq := by
  induction d with
  | nil => simp [dset, dget, Ne.symm h]
  | cons kv rest ih =>
      obtain ⟨k', v'⟩ := kv
      by_cases hk : k' = kset
      · subst hk
        simp [dset, dget, Ne.symm h]
      · simp [dset, hk, dget, ih]

theorem dget_eq_none_of_not_mem {α : Type} (d : Dict α) (k : String)
    (h : k ∉ d.map Prod.fst) : dget d k = Option.none := by
  induction d with
  | nil => rfl
  | cons kv rest ih =>
      obtain ⟨k', v'⟩ := kv
      simp only [List.map_cons, List.mem_cons] at h
      push_neg at h
      simp [dget, Ne.symm h.1, ih h.2]

theorem dset_eq_append_of_not_mem {α : Type} (d : Dict α) (k : String) (v : α)
    (h : k ∉ d.map Prod.fst) : dset d k v = d ++ [(k, v)] := by
  induction d with
  | nil => rfl
  | cons kv rest ih =>
      obtain ⟨k', v'⟩ := kv
      simp only [List.map_cons, List.mem_cons] at h
      push_neg at h
      simp [dset, Ne.symm h.1, ih h.2]

theorem dupdate_eq_append {α : Type} (src : Dict α) (d : Dict α)
    (hnd : (src.map Prod.fst).Nodup)
    (hdisj : ∀ x ∈ src.map Prod.fst, x ∉ d.map Prod.fst) :
    dupdate d src = d ++ src := by
  induction src generalizing d with
  | nil => simp [dupdate]
  | cons kv rest ih =>
      obtain ⟨k0, v0⟩ := kv
      simp only [List.map_cons, List.nodup_cons] at hnd
      have hstep : dupdate d ((k0, v0) :: rest) = dupdate (dset d k0 v0) rest := rfl
      have hk0 : k0 ∉ d.map Prod.fst := hdisj k0 (by simp)
      rw [hstep, dset_eq_append_of_not_mem d k0 v0 hk0,
        ih (d ++ [(k0, v0)]) hnd.2 ?_]
      · simp
      · intro x hx
        simp only [List.map_append, List.mem_append, List.map_cons, List.map_nil,
          List.mem_singleton]
        push_neg
        refine ⟨hdisj x (by simp [hx]), ?_⟩
        intro hxk
        exact hnd.1 (hxk ▸ hx)

theorem dupdate_nil_eq {α : Type} (src : Dict α) (hnd : (src.map Prod.fst).Nodup) :
    dupdate [] src = src := by
  simpa using dupdate_eq_append src [] hnd (by simp)

theorem dget_dupdate {α : Type} (d src : Dict α) (k : String)
    (hnd : (src.map Prod.fst).Nodup) :
    dget (dupdate d src) k =
      match dget src k with
      | some v => some v
      | Option.none => dget d k := by
  induction src generalizing d with
  | nil => simp [dupdate, dget]
  | cons kv rest ih =>
      obtain ⟨k0, v0⟩ := kv
      simp only [List.map_cons, List.nodup_cons] at hnd
      have hstep : dupdate d ((k0, v0) :: rest) = dupdate (dset d k0 v0) rest := rfl
      rw [hstep, ih (dset d k0 v0) hnd.2]
      by_cases hk : k0 = k
      · subst hk
        rw [dget_eq_none_of_not_mem rest k0 hnd.1]
        simp [dget, dget_dset_self]
      · have hq : (k : String) ≠ k0 := fun hh => hk hh.symm
        rw [dget_dset_ne d k0 k v0 hq]
        simp [dget, hk]

/-! ### Registry and usage-summing lemmas -/

theorem getOrCreateModule_stores (ext : Ext) (cfg : Config) (s : Provider) (alloc : Nat)
    (m : Module) (s' : Provider) (a' : Nat)
    (h : getOrCreateModule ext cfg s alloc = Except.ok (m, s', a')) :
    dget s'.compiled_modules (cacheKey cfg) = some m := by
  unfold getOrCreateModule at h
  cases hl : dget s.compiled_modules (cacheKey cfg) with
  | some m0 =>
      rw [hl] at h
      simp only [Except.ok.injEq, Prod.mk.injEq] at h
      obtain ⟨hm, hs, _⟩ := h
      rw [← hs, hl, hm]
  | none =>
      rw [hl] at h
      cases hopt : (if cfg.optimize.getD false then
          optimizeModule ext (createModule cfg alloc) cfg
        else Except.ok (createModule cfg alloc)) with
      | error e => rw [hopt] at h; exact absurd h (by simp)
      | ok mm =>
          rw [hopt] at h
          simp only [Except.ok.injEq, Prod.mk.injEq] at h
          obtain ⟨hm, hs, _⟩ := h
          rw [← hs]
          simp only [← hm]
          exact dget_dset_self s.compiled_modules (cacheKey cfg) mm

theorem pyAddTok_ok (acc : Int) (us : Dict Value) (k : String) (h : tokOK us k = true) :
    pyAddTok acc us k = Except.ok (acc + tokD us k) := by
  unfold pyAddTok tokOK tokD at *
  cases hg : dget us k with
  | none => simp [hg]
  | some v =>
      rw [hg] at h
      cases v with
      | int n => simp [hg]
      | bool b => simp [hg]
      | str s => simp at h
      | pynone => simp at h
      | list xs => simp at h
      | dict es => simp at h
      | obj n a => simp at h

theorem addEntry_ok (acc : Int × Int × Int) (e : Value) (h : entryOK e = true) :
    addEntry acc e = Except.ok (addEntrySpec acc e) := by
  cases e with
  | dict es =>
      simp only [entryOK] at h
      simp only [addEntry, addEntrySpec]
      cases hu : usageDictOf es with
      | none => rw [hu] at h; simp at h
      | some us =>
          rw [hu] at h
          dsimp only at h ⊢
          simp only [Bool.and_eq_true] at h
          obtain ⟨⟨h1, h2⟩, h3⟩ := h
          simp only [pyAddTok_ok acc.1 us "total_tokens" h1,
            pyAddTok_ok acc.2.1 us "prompt_tokens" h2,
            pyAddTok_ok acc.2.2 us "completion_tokens" h3]
  | str s => rfl
  | int n => rfl
  | bool b => rfl
  | pynone => rfl
  | list xs => rfl
  | obj n a => rfl

theorem sumLog_ok (log : List Value) (acc : Int × Int × Int)
    (h : ∀ e ∈ log, entryOK e = true) :
    sumLog log acc = Except.ok (sumLogSpec log acc) := by
  induction log generalizing acc with
  | nil => rfl
  | cons e rest ih =>
      have he : entryOK e = true := h e (by simp)
      have hrest : ∀ x ∈ rest, entryOK x = true := fun x hx => h x (by simp [hx])
      simp [sumLog, sumLogSpec, addEntry_ok acc e he, ih (addEntrySpec acc e) hrest]

/-! ### Claim theorems -/

/-- Claim C1, counterexample: the module cache is an attribute of the
`DSPyProvider` instance and `call_api` constructs a fresh provider on every
call, so two calls to the registry step performed inside `call_api`, with
the identical configuration descriptor, create two distinct program
instances instead of returning one cached instance: the claimed process-wide
reference equality fails. -/
theorem call_api_resolution_not_process_wide :
    resolveInCallApi ext0 (some "k") {} 0 = Except.ok (mDefault, provDefault, 1) ∧
    resolveInCallApi ext0 (some "k") {} 1 = Except.ok (mDefault1, provDefault1, 2) ∧
    mDefault ≠ mDefault1 :=
  ⟨rfl, rfl, by decide⟩

/-- Claim C1, amended: within one `DSPyProvider` instance the cached reuse
does hold — two successive resolutions through the same provider state, for
descriptors with the same `(module_type, signature)` pair, return the
identical module instance. -/
theorem same_pair_same_instance_within_provider (ext : Ext) (cfg1 cfg2 : Config)
    (s : Provider) (alloc : Nat) (m1 m2 : Module) (s1 s2 : Provider) (a1 a2 : Nat)
    (hmt : cfg1.module_type = cfg2.module_type) (hsig : cfg1.signature = cfg2.signature)
    (h1 : getOrCreateModule ext cfg1 s alloc = Except.ok (m1, s1, a1))
    (h2 : getOrCreateModule ext cfg2 s1 a1 = Except.ok (m2, s2, a2)) :
    m2 = m1 := by
  have hkey : cacheKey cfg2 = cacheKey cfg1 := by
    unfold cacheKey
    rw [hmt, hsig]
  have hst := getOrCreateModule_stores ext cfg1 s alloc m1 s1 a1 h1
  unfold getOrCreateModule at h2
  rw [hkey, hst] at h2
  simp only [Except.ok.injEq, Prod.mk.injEq] at h2
  exact h2.1.symm

/-- Witness for the amended C1 theorem at the default configuration on one
provider. -/
theorem same_pair_same_instance_within_provider_witness :
    getOrCreateModule ext0 {} prov0 0 = Except.ok (mDefault, provDefault, 1) ∧
    getOrCreateModule ext0 {} provDefault 1 = Except.ok (mDefault, provDefault, 1) ∧
    mDefault = mDefault :=
  ⟨rfl, rfl,
    same_pair_same_instance_within_provider ext0 {} {} prov0 0 mDefault mDefault
      provDefault provDefault 1 1 rfl rfl rfl rfl⟩

/-- Claim C2: `call_api` never propagates an exception — for every input
and every behaviour of the external collaborators it returns either a
success envelope (no `error` key) or the error envelope
`\x7berror: "DSPy Provider Error: <message>", output: ""\x7d`. -/
theorem call_api_error_envelope (ext : Ext) (apiKey : Option String) (prompt : String)
    (options : Options) (context : Context) (alloc : Nat) :
    (call_api ext apiKey prompt options context alloc).1.error = Option.none ∨
    ∃ msg, (call_api ext apiKey prompt options context alloc).1 =
      { output := "", error := some ("DSPy Provider Error: " ++ msg) } := by
  unfold call_api
  cases h : call_api_try ext apiKey prompt options context alloc with
  | ok s => left; rfl
  | error e => right; exact ⟨e, rfl⟩

/-- Claim C7, counterexample: with a nonempty example list whose `inputs`
value is not iterable and an unsupported optimizer name, `_optimize_module`
raises `TypeError` at the argument splat of the trainset conversion — run
before the optimizer dispatch — instead of returning the original program
unchanged, so the claimed universal no-raise fallback fails. -/
theorem optimize_unknown_kind_can_raise :
    cfgBadSplat.optimizer.getD "BootstrapFewShot" = "GEPA" ∧
    (cfgBadSplat.examples.getD []).isEmpty = false ∧
    optimizeModule ext0 m7 cfgBadSplat =
      Except.error "TypeError: argument after * must be an iterable" :=
  ⟨rfl, rfl, rfl⟩

/-- Claim C7, amended: optimization is the identity under its fallback
conditions — with an empty example list `_optimize_module` returns the
input module unchanged without raising; and with an unsupported optimizer
name it returns the original module unchanged without raising, provided
the trainset conversion of the examples (which runs first) does not itself
raise at the `inputs` splat. -/
theorem optimize_fallback_identity (ext : Ext) (m : Module) (cfg : Config) :
    (cfg.examples.getD [] = [] → optimizeModule ext m cfg = Except.ok m) ∧
    (∀ ts, buildTrainset (cfg.examples.getD []) = Except.ok ts →
     cfg.optimizer.getD "BootstrapFewShot" ≠ "BootstrapFewShot" →
     cfg.optimizer.getD "BootstrapFewShot" ≠ "BootstrapFewShotWithRandomSearch" →
     optimizeModule ext m cfg = Except.ok m) := by
  constructor
  · intro h
    simp [optimizeModule, h]
  · intro ts hts h1 h2
    by_cases he : (cfg.examples.getD []).isEmpty
    · simp [optimizeModule, he]
    · simp [optimizeModule, he, hts, h1, h2]

/-- Witness for the amended C7 theorem: an empty-example configuration and
an unsupported optimizer name with a cleanly converting example list both
leave the module untouched. -/
theorem optimize_fallback_identity_witness :
    (({} : Config).examples.getD [] = [] ∧ optimizeModule ext0 m7 {} = Except.ok m7) ∧
    (buildTrainset (cfgGepa.examples.getD []) =
       Except.ok [{ fields := [("question", Value.str "q"), ("answer", Value.str "a")],
                    inputs := ["question"] }] ∧
     cfgGepa.optimizer.getD "BootstrapFewShot" = "GEPA" ∧
     optimizeModule ext0 m7 cfgGepa = Except.ok m7) :=
  ⟨⟨rfl, (optimize_fallback_identity ext0 m7 {}).1 rfl⟩,
   ⟨rfl, rfl,
    (optimize_fallback_identity ext0 m7 cfgGepa).2
      [{ fields := [("question", Value.str "q"), ("answer", Value.str "a")],
         inputs := ["question"] }] rfl (by decide) (by decide)⟩⟩

/-- Claim C10: the descriptors (`predict`, `x_y -> z`) and (`predict_x`,
`y -> z`) are distinct yet share the underscore-joined cache key, so on the
same provider the second resolution returns the instance created and cached
for the first instead of a program for its own requested signature. -/
theorem cache_key_collision :
    (cfgPredictXY.module_type.getD "predict",
       cfgPredictXY.signature.getD "question -> answer") ≠
      (cfgPredictX_Y.module_type.getD "predict",
       cfgPredictX_Y.signature.getD "question -> answer") ∧
    cacheKey cfgPredictXY = cacheKey cfgPredictX_Y ∧
    getOrCreateModule ext0 cfgPredictXY prov0 0 = Except.ok (mXY, provXY, 1) ∧
    getOrCreateModule ext0 cfgPredictX_Y provXY 1 = Except.ok (mXY, provXY, 1) ∧
    mXY.signature ≠ cfgPredictX_Y.signature.getD "question -> answer" :=
  ⟨by decide, rfl, rfl, rfl, by decide⟩

/-- Claim C3: the inputs built for the program are exactly the supplied
variable mapping when the prompt contains the template marker, and
otherwise the prompt bound to `question` merged with the variables, a
`question` variable overriding the prompt text (last-write-wins). -/
theorem build_inputs_spec (prompt : String) (vars : Dict Value)
    (hnd : (vars.map Prod.fst).Nodup) :
    (pyIn "\x7b\x7b" prompt = true → buildInputs prompt vars = vars) ∧
    (pyIn "\x7b\x7b" prompt = false → ∀ k, dget (buildInputs prompt vars) k =
      match dget vars k with
      | some v => some v
      | Option.none => if k = "question" then some (Value.str prompt) else Option.none) := by
  constructor
  · intro h
    simp [buildInputs, h, dupdate_nil_eq vars hnd]
  · intro h k
    simp only [buildInputs, h, Bool.false_eq_true, if_false]
    rw [dget_dupdate [("question", Value.str prompt)] vars k hnd]
    cases hv : dget vars k with
    | some v => rfl
    | none =>
        by_cases hk : k = "question"
        · subst hk
          simp [dget]
        · simp [dget, Ne.symm hk, hk]

/-- Witness for C3: a templated prompt keeps exactly the vars; a plain
prompt is overridden by a supplied `question` variable. -/
theorem build_inputs_spec_witness :
    (([("topic", Value.str "x")].map Prod.fst).Nodup ∧
     pyIn "\x7b\x7b" "Hi \x7b\x7btopic\x7d\x7d" = true ∧
     buildInputs "Hi \x7b\x7btopic\x7d\x7d" [("topic", Value.str "x")] =
       [("topic", Value.str "x")]) ∧
    (pyIn "\x7b\x7b" "What is AI?" = false ∧
     dget (buildInputs "What is AI?" [("question", Value.str "override")]) "question" =
       some (Value.str "override")) := by
  refine ⟨⟨by decide, by decide, ?_⟩, by decide, ?_⟩
  · exact (build_inputs_spec "Hi \x7b\x7btopic\x7d\x7d" [("topic", Value.str "x")]
      (by decide)).1 (by decide)
  · exact ((build_inputs_spec "What is AI?" [("question", Value.str "override")]
      (by decide)).2 (by decide) "question").trans rfl

/-- Claim C4: output extraction never raises and always returns a string —
the configured field as an attribute, else as a mapping key, else the
result's string representation (the total function `extractOutputSpec`). -/
theorem extract_output_total (r : DspyResult) (cfg : Config) :
    extract_output r cfg = Except.ok (extractOutputSpec r cfg) := by
  unfold extract_output extractOutputSpec getattrE hasattrV
  cases hv : r.val with
  | obj cn attrs =>
      cases ha : dget attrs (cfg.output_field.getD "answer") with
      | some x => simp [getattrOpt, ha]
      | none => simp [getattrOpt, ha, isDictV]
  | dict es =>
      cases hd : dget es (cfg.output_field.getD "answer") with
      | some x => simp [getattrOpt, isDictV, dictContainsV, dictItemE, hd]
      | none => simp [getattrOpt, isDictV, dictContainsV, hd]
  | str s => simp [getattrOpt, isDictV]
  | int n => simp [getattrOpt, isDictV]
  | bool b => simp [getattrOpt, isDictV]
  | pynone => simp [getattrOpt, isDictV]
  | list xs => simp [getattrOpt, isDictV]

/-- Claim C5, counterexample: usage extraction does raise on some result
objects — an entry whose `"usage"` value is a string raises
`AttributeError` at `usage_data.get(...)`, and a non-int token value raises
`TypeError` at the `+=` — refuting the claimed universal never-raises. -/
theorem usage_stats_can_raise :
    get_usage_stats rBadUsage = Except.error "AttributeError: get" ∧
    get_usage_stats rBadTok = Except.error "TypeError: unsupported operand" :=
  ⟨rfl, rfl⟩

/-- Claim C5, amended: on every result object whose usage log is well
formed (each dict entry's `"usage"` value is a dict whose token fields, if
present, are ints or bools), usage extraction does not raise and computes
the total summing function — the `\x7btotal, prompt, completion\x7d` sums
when the accessor is present and the total is positive, the empty mapping
otherwise. -/
theorem usage_stats_spec (r : DspyResult) (h : logOK r = true) :
    get_usage_stats r = Except.ok (usageSpecOf r) := by
  unfold get_usage_stats usageSpecOf logOK at *
  cases hl : r.lm_usage with
  | none => rfl
  | some log =>
      rw [hl] at h
      dsimp only at h ⊢
      have hall : ∀ e ∈ log, entryOK e = true := by
        intro e hee
        simpa using List.all_eq_true.mp h e hee
      by_cases he : log.isEmpty
      · simp [he]
      · rw [if_neg he, if_neg he, sumLog_ok log (0, 0, 0) hall]
        dsimp only
        by_cases hp : 0 < (sumLogSpec log (0, 0, 0)).1
        · rw [if_pos hp, if_pos hp]
        · rw [if_neg hp, if_neg hp]

/-- Witness for C5: a usage log with two entries whose `total_tokens` are
10 and 15 yields the mapping with total 25. -/
theorem usage_stats_spec_witness :
    logOK rUsage = true ∧
    get_usage_stats rUsage =
      Except.ok [("total", 25), ("prompt", 0), ("completion", 0)] :=
  ⟨rfl, (usage_stats_spec rUsage rfl).trans rfl⟩

/-- Claim C6: a configuration with an unrecognized `module_type` resolves
without raising, instantiating the default predict-kind program for the
requested signature (when the key is not yet cached and optimization is not
requested). -/
theorem unknown_module_type_defaults_to_predict (ext : Ext) (cfg : Config) (s : Provider)
    (alloc : Nat) (mt : String) (hmt : cfg.module_type = some mt)
    (h1 : mt ≠ "predict") (h2 : mt ≠ "chain_of_thought")
    (h3 : mt ≠ "program_of_thought") (h4 : mt ≠ "react")
    (hmiss : dget s.compiled_modules (cacheKey cfg) = Option.none)
    (hopt : cfg.optimize.getD false = false) :
    getOrCreateModule ext cfg s alloc =
      Except.ok ({ id := alloc, kind := ModuleKind.predict,
                   signature := cfg.signature.getD "question -> answer" },
        { compiled_modules := dset s.compiled_modules (cacheKey cfg)
            { id := alloc, kind := ModuleKind.predict,
              signature := cfg.signature.getD "question -> answer" } },
        alloc + 1) := by
  unfold getOrCreateModule
  rw [hmiss]
  simp [hopt, createModule, hmt, h1, h2, h3, h4]

/-- Witness for C6: `module_type = "unknown_kind"` on a fresh provider
yields a predict module for the default signature. -/
theorem unknown_module_type_defaults_to_predict_witness :
    cfgUnknown.module_type = some "unknown_kind" ∧
    dget prov0.compiled_modules (cacheKey cfgUnknown) = Option.none ∧
    cfgUnknown.optimize.getD false = false ∧
    getOrCreateModule ext0 cfgUnknown prov0 0 =
      Except.ok ({ id := 0, kind := ModuleKind.predict, signature := "question -> answer" },
        { compiled_modules := [("unknown_kind_question -> answer",
            { id := 0, kind := ModuleKind.predict, signature := "question -> answer" })] },
        1) := by
  refine ⟨rfl, rfl, rfl, ?_⟩
  rw [unknown_module_type_defaults_to_predict ext0 cfgUnknown prov0 0 "unknown_kind" rfl
    (by decide) (by decide) (by decide) (by decide) rfl rfl]
  rfl

/-- Claim C8, counterexample: with `output_field` configured to `summary`,
the default metric disagrees with containment on the configured output
field — the configured-field containment holds while the built metric
returns false, because the metric reads the hardcoded attribute `answer`. -/
theorem default_metric_not_configured_field :
    cfgSummary.output_field = some "summary" ∧
    defaultMetric goldEx predEx = Except.ok false ∧
    metricSpec cfgSummary goldEx predEx = true :=
  ⟨rfl, rfl, rfl⟩

/-- Claim C8, amended: the default metric computes case-insensitive
substring containment of the gold example's `answer` attribute within the
prediction's `answer` attribute — the field name is hardcoded to `answer`,
independent of the configured output field — and returns true when either
side lacks that attribute. -/
theorem default_metric_hardcodes_answer (gold pred : Value) (g p : String) :
    (getattrOpt gold "answer" = some (Value.str g) →
     getattrOpt pred "answer" = some (Value.str p) →
     defaultMetric gold pred = Except.ok (pyIn (pyLower g) (pyLower p))) ∧
    ((hasattrV pred "answer" && hasattrV gold "answer") = false →
     defaultMetric gold pred = Except.ok true) := by
  constructor
  · intro hg hp
    simp [defaultMetric, hasattrV, hg, hp]
  · intro hno
    simp [defaultMetric, hno]

/-- Witness for the amended C8 theorem: concrete string attributes and a
concrete attribute-free pair. -/
theorem default_metric_hardcodes_answer_witness :
    (getattrOpt goldEx "answer" = some (Value.str "zzz") ∧
     getattrOpt predEx "answer" = some (Value.str "qqq") ∧
     defaultMetric goldEx predEx = Except.ok (pyIn (pyLower "zzz") (pyLower "qqq"))) ∧
    ((hasattrV (Value.int 3) "answer" && hasattrV (Value.int 4) "answer") = false ∧
     defaultMetric (Value.int 4) (Value.int 3) = Except.ok true) :=
  ⟨⟨rfl, rfl, (default_metric_hardcodes_answer goldEx predEx "zzz" "qqq").1 rfl rfl⟩,
   ⟨rfl, (default_metric_hardcodes_answer (Value.int 4) (Value.int 3) "" "").2 rfl⟩⟩

/-- Claim C9, counterexample: in the auth-unavailable branch
`configure_promptfoo_env` returns Python `None` (a bare `return`), not the
boolean `False` the claim states for every failure branch. -/
theorem configure_env_returns_none_not_false :
    (configure_promptfoo_env Option.none false (Except.error "x") (Except.error "x")
        "b" "a").1 = PyRet.pynone ∧
    PyRet.pynone ≠ PyRet.bool false :=
  ⟨rfl, by decide⟩

/-- Claim C9, amended: when credential retrieval fails,
`configure_promptfoo_env` never raises and returns a falsy signal — `None`
when the auth system is unavailable, and `False` when the setup raises or
no (truthy) token is retrieved — printing a warning line in every failure
branch. -/
theorem configure_env_failure_branches (g : Except String String)
    (t : Except String (Option String)) (b a e am : String) (tok : Option String) :
    (configure_promptfoo_env Option.none false g t b a =
      (PyRet.pynone,
       ["⚠️  Cake auth not available - running without authentication",
        "To enable auth, you can:",
        "  1. Set CAKE_JWT_TOKEN with a manual token",
        "  2. Set CAKE_DEX_INFERENCE_PASSWORD",
        "  3. Or configure AWS credentials for Secrets Manager"], [])) ∧
    (g = Except.error e →
      (configure_promptfoo_env Option.none true g t b a).1 = PyRet.bool false ∧
      ("⚠️  Authentication setup failed: " ++ e) ∈
        (configure_promptfoo_env Option.none true g t b a).2.1) ∧
    (g = Except.ok am → t = Except.error e →
      (configure_promptfoo_env Option.none true g t b a).1 = PyRet.bool false ∧
      ("⚠️  Authentication setup failed: " ++ e) ∈
        (configure_promptfoo_env Option.none true g t b a).2.1) ∧
    (g = Except.ok am → t = Except.ok tok → optStrTruthy tok = false →
      (configure_promptfoo_env Option.none true g t b a).1 = PyRet.bool false ∧
      "⚠️  No auth token retrieved - authentication may fail" ∈
        (configure_promptfoo_env Option.none true g t b a).2.1) := by
  refine ⟨rfl, ?_, ?_, ?_⟩
  · intro hg
    subst hg
    exact ⟨rfl, by simp [configure_promptfoo_env, authFailLines, optStrTruthy]⟩
  · intro hg ht
    subst hg
    subst ht
    exact ⟨rfl, by simp [configure_promptfoo_env, authFailLines, optStrTruthy]⟩
  · intro hg ht htok
    subst hg
    subst ht
    cases tok with
    | none => exact ⟨rfl, by simp [configure_promptfoo_env, optStrTruthy]⟩
    | some s =>
        have hs : s = "" := by simpa [optStrTruthy] using htok
        subst hs
        exact ⟨rfl, by simp [configure_promptfoo_env, optStrTruthy]⟩

/-- Witness for the amended C9 theorem at concrete failing oracles. -/
theorem configure_env_failure_branches_witness :
    ((configure_promptfoo_env Option.none true (Except.error "boom")
        (Except.error "x") "b" "a").1 = PyRet.bool false ∧
     ("⚠️  Authentication setup failed: " ++ "boom") ∈
       (configure_promptfoo_env Option.none true (Except.error "boom")
         (Except.error "x") "b" "a").2.1) ∧
    ((configure_promptfoo_env Option.none true (Except.ok "aws")
        (Except.error "boom") "b" "a").1 = PyRet.bool false ∧
     ("⚠️  Authentication setup failed: " ++ "boom") ∈
       (configure_promptfoo_env Option.none true (Except.ok "aws")
         (Except.error "boom") "b" "a").2.1) ∧
    ((configure_promptfoo_env Option.none true (Except.ok "aws")
        (Except.ok Option.none) "b" "a").1 = PyRet.bool false ∧
     "⚠️  No auth token retrieved - authentication may fail" ∈
       (configure_promptfoo_env Option.none true (Except.ok "aws")
         (Except.ok Option.none) "b" "a").2.1) :=
  ⟨(configure_env_failure_branches (Except.error "boom") (Except.error "x")
      "b" "a" "boom" "" Option.none).2.1 rfl,
   (configure_env_failure_branches (Except.ok "aws") (Except.error "boom")
      "b" "a" "boom" "aws" Option.none).2.2.1 rfl rfl,
   (configure_env_failure_branches (Except.ok "aws") (Except.ok Option.none)
      "b" "a" "" "aws" Option.none).2.2.2 rfl rfl rfl⟩

end DspyPromptfoo
